import Mathlib

/-!
# Cookieless tracker (`src/index.js`): a shallow embedding

The tracker keeps all visitor state in the ETag the client echoes back.
This file embeds the `Tracker` class of `src/index.js` and proves properties
of it.

Modelling conventions.

* JavaScript strings are lists of characters (`Str`).
* JavaScript numbers are modelled on their integer fragment: `Num.int n` for an
  integer `n`, `Num.nan` for `NaN`.  The embedding is exact for integers of
  magnitude below `2^53`; rounding of larger values, fractions, infinities and
  exponent notation are not modelled.
* A property of the tracker object holds a `Val`: `undefined`, a string or a
  number.  The implicit conversions of the language (`ToBoolean`, `ToString`,
  `ToNumber`) are explicit functions.
* Reads of the clock (`(new Date()).getTime()`) and of `Math.random()` are
  inputs, gathered in `Env`; each read site has its own field.
* A thrown `TypeError` is `Except.error Fault.typeError`.  A run that needs a
  string-to-number conversion outside the fragment modelled here ends in
  `Except.error Fault.unmodelled`, so that nothing is claimed about it.
-/

namespace Cookieless

/-- JavaScript strings. -/
abbrev Str := List Char

/-- JavaScript numbers, integer fragment. -/
inductive Num where
  | int (n : Int)
  | nan
  deriving DecidableEq, Repr

/-- Values held by the properties of a tracker object. -/
inductive Val where
  | undefined
  | str (s : Str)
  | num (n : Num)
  deriving DecidableEq, Repr

/-- Ways a run can end without a result. -/
inductive Fault where
  | typeError
  | unmodelled
  deriving DecidableEq, Repr

/-- Decimal text of an integer, as `ToString` gives it for a number. -/
def intToStr : Int → Str
  | Int.ofNat k => Nat.toDigits 10 k
  | Int.negSucc k => '-' :: Nat.toDigits 10 (k + 1)

/-- The conversion `ToString` on numbers. -/
def Num.toStr : Num → Str
  | Num.int n => intToStr n
  | Num.nan => "NaN".toList

/-- The conversion `ToString` on values. -/
def Val.toStr : Val → Str
  | Val.undefined => "undefined".toList
  | Val.str s => s
  | Val.num n => n.toStr

/-- The conversion `ToBoolean`: `undefined`, the empty string, `0` and `NaN` are falsy. -/
def Val.truthy : Val → Bool
  | Val.undefined => false
  | Val.str s => !s.isEmpty
  | Val.num (Num.int n) => n != 0
  | Val.num Num.nan => false

/-- The operator `a || b` on an optional string and a string default. -/
def orElse (a : Option Str) (b : Str) : Str :=
  match a with
  | some s => if s.isEmpty then b else s
  | none => b

/-- White space skipped by `parseInt` (`StrWhiteSpaceChar`). -/
def isStrWhiteSpace (c : Char) : Bool :=
  c.toNat ∈ [0x09, 0x0A, 0x0B, 0x0C, 0x0D, 0x20, 0xA0, 0x1680, 0x2000, 0x2001, 0x2002,
    0x2003, 0x2004, 0x2005, 0x2006, 0x2007, 0x2008, 0x2009, 0x200A, 0x2028, 0x2029,
    0x202F, 0x205F, 0x3000, 0xFEFF]

/-- Value of a character as a digit in the given radix (10 or 16), if it is one. -/
def digitValue (radix : Nat) (c : Char) : Option Nat :=
  if 48 ≤ c.toNat ∧ c.toNat ≤ 57 then some (c.toNat - 48)
  else if radix = 16 ∧ 97 ≤ c.toNat ∧ c.toNat ≤ 102 then some (c.toNat - 87)
  else if radix = 16 ∧ 65 ≤ c.toNat ∧ c.toNat ≤ 70 then some (c.toNat - 55)
  else none

/-- Whether a character is a digit of the radix. -/
def isRadixDigit (radix : Nat) (c : Char) : Bool := (digitValue radix c).isSome

/-- Value of a run of digits in the given radix, most significant first. -/
def digitsValue (radix : Nat) (ds : Str) : Nat :=
  ds.foldl (fun acc c => acc * radix + (digitValue radix c).getD 0) 0

/-- Whether the string starts with the given character. -/
def startsWith (s : Str) (c : Char) : Bool := s.head? == some c

/-- Whether the string starts with `0x` or `0X`. -/
def hexMarked (s : Str) : Bool := s.take 2 == ['0', 'x'] || s.take 2 == ['0', 'X']

/-- The global `parseInt(string)` with no radix argument: skip leading white
space, read a sign, switch to radix 16 after `0x`/`0X`, read the longest run of
digits; `NaN` when that run is empty. -/
def parseInt (s : Str) : Num :=
  let s1 := s.dropWhile isStrWhiteSpace
  let negative := startsWith s1 '-'
  let s2 := if startsWith s1 '-' || startsWith s1 '+' then s1.tail else s1
  let radix : Nat := if hexMarked s2 then 16 else 10
  let s3 := if hexMarked s2 then s2.drop 2 else s2
  let z := s3.takeWhile (isRadixDigit radix)
  if z.isEmpty then Num.nan
  else if negative then Num.int (-(digitsValue radix z : Int))
  else Num.int (digitsValue radix z : Int)

/-- The conversion `ToNumber` on a string, for optionally signed decimal integer literals.
Other strings (which the language maps to `NaN` or, for literal forms not
modelled here, to other numbers) give `none`. -/
def strToNumber (s : Str) : Option Num :=
  let negative := startsWith s '-'
  let ds := if startsWith s '-' || startsWith s '+' then s.tail else s
  if ds.isEmpty then none
  else if ds.all (isRadixDigit 10) then
    some (if negative then Num.int (-(digitsValue 10 ds : Int)) else Num.int (digitsValue 10 ds : Int))
  else none

/-- The conversion `ToNumber` on values. -/
def Val.toNumber : Val → Except Fault Num
  | Val.undefined => Except.ok Num.nan
  | Val.num n => Except.ok n
  | Val.str s =>
    match strToNumber s with
    | some n => Except.ok n
    | none => Except.error Fault.unmodelled

/-- Subtraction of numbers. -/
def Num.sub : Num → Num → Num
  | Num.int a, Num.int b => Num.int (a - b)
  | _, _ => Num.nan

/-- Adding one, as the increment operator does after `ToNumber`. -/
def Num.succ : Num → Num
  | Num.int a => Num.int (a + 1)
  | Num.nan => Num.nan

/-- The comparison `x >= k` against an integer constant; false for `NaN`. -/
def Num.geInt : Num → Int → Bool
  | Num.int a, k => decide (k ≤ a)
  | Num.nan, _ => false

/-- Capture of `/^([^.]+)/`: the longest dot-free start of the string;
`none` (the match is `null`) when it is empty. -/
def matchFirst (s : Str) : Option Str :=
  let a := s.takeWhile (fun c => c != '.')
  if a.isEmpty then none else some a

/-- Capture of `/^[^.]+\.([^.]+)/`: a non-empty dot-free start, a dot, then the
longest dot-free run, which must be non-empty. -/
def matchSecond (s : Str) : Option Str :=
  let a := s.takeWhile (fun c => c != '.')
  if a.isEmpty then none
  else
    match s.dropWhile (fun c => c != '.') with
    | '.' :: r =>
      let b := r.takeWhile (fun c => c != '.')
      if b.isEmpty then none else some b
    | _ => none

/-- Capture of `/\.([^.]+)$/`: leftmost position where a dot is followed by a
non-empty dot-free run reaching the end of the string. -/
def matchLast : Str → Option Str
  | [] => none
  | c :: cs =>
    if c = '.' ∧ !cs.isEmpty ∧ cs.all (fun d => d != '.') then some cs
    else matchLast cs

/-- What a request supplies: the `callback` query parameter and the
`if-none-match` header, each possibly absent. -/
structure Request where
  queryCallback : Option Str
  ifNoneMatch : Option Str
  deriving DecidableEq, Repr

/-- Values read from the environment while one request is processed. -/
structure Env where
  /-- Clock value read by `update`. -/
  now : Int
  /-- Clock value read by `generateEtag`. -/
  nowEtag : Int
  /-- Clock value read by `generateId`. -/
  nowId : Int
  /-- Value of `Math.random()`, in `[0, 1)`. -/
  random : ℚ

/-- The tracker object. -/
structure Tracker where
  updated : Bool
  callback : Str
  etag : Val
  id : Val
  lastSeen : Val
  session : Val
  deriving DecidableEq, Repr

/-- The token text `a.b.c`, joined the way `generateEtag` joins its parts. -/
def joinToken (a b c : Str) : Str := a ++ ".".toList ++ b ++ ".".toList ++ c

/-- The name used when the request gives no callback. -/
def defaultCallback : Str := "cookielessCallback".toList

/-- Method `Tracker.prototype.generateId`:
`Math.floor(Math.random()*100)+""+now`. -/
def generateId (env : Env) : Str :=
  intToStr ⌊env.random * 100⌋ ++ "".toList ++ intToStr env.nowId

/-- Method `Tracker.prototype.generateEtag`: fills in `id` and `session` when they are
falsy, sets `updated`, and returns `id.now.session`. -/
def generateEtag (t : Tracker) (env : Env) : Tracker × Str :=
  let now := env.nowEtag
  let id := if t.id.truthy then t.id else Val.str (generateId env)
  let session := if t.session.truthy then t.session else Val.num (Num.int 1)
  ({ t with id := id, session := session, updated := true },
    id.toStr ++ ".".toList ++ intToStr now ++ ".".toList ++ session.toStr)

/-- Method `Tracker.prototype.update`: when not yet updated and the visitor was last
seen at least 1800000 ms ago, increments the session and regenerates the
ETag. -/
def update (t : Tracker) (env : Env) : Except Fault Tracker :=
  if !t.updated then
    let now := env.now
    match t.lastSeen.toNumber with
    | Except.error f => Except.error f
    | Except.ok lastSeen =>
      let diff := (Num.int now).sub lastSeen
      if diff.geInt 1800000 then
        match t.session.toNumber with
        | Except.error f => Except.error f
        | Except.ok old =>
          let t1 := { t with session := Val.num old.succ }
          let r := generateEtag t1 env
          Except.ok { r.1 with etag := Val.str r.2 }
      else Except.ok t
  else Except.ok t

/-- Method `Tracker.prototype.parse`: reads `id`, `lastSeen` and `session` out of the
ETag with three regular expressions; indexing a `null` match throws. -/
def parse (t : Tracker) : Except Fault Tracker :=
  match t.etag with
  | Val.str etag =>
    match matchFirst etag with
    | none => Except.error Fault.typeError
    | some id =>
      match matchSecond etag with
      | none => Except.error Fault.typeError
      | some lastSeen =>
        match matchLast etag with
        | none => Except.error Fault.typeError
        | some session =>
          Except.ok { t with id := Val.str id, lastSeen := Val.num (parseInt lastSeen),
                             session := Val.str session }
  | _ => Except.error Fault.typeError

/-- The constructor `Tracker(req, update)`; `upd = none` is a call without the
second argument. -/
def newTracker (req : Request) (upd : Option Bool) (env : Env) : Except Fault Tracker :=
  let doUpdate := upd.getD true
  let this0 : Tracker :=
    { updated := false, callback := orElse req.queryCallback defaultCallback,
      etag := Val.undefined, id := Val.undefined, lastSeen := Val.undefined,
      session := Val.undefined }
  let this1 : Tracker :=
    match req.ifNoneMatch with
    | some h =>
      if h.isEmpty then
        let r := generateEtag this0 env
        { r.1 with etag := Val.str r.2 }
      else { this0 with etag := Val.str h }
    | none =>
      let r := generateEtag this0 env
      { r.1 with etag := Val.str r.2 }
  match parse this1 with
  | Except.error f => Except.error f
  | Except.ok this2 => if doUpdate then update this2 env else Except.ok this2

/-- Method `Tracker.prototype.statusCode`. -/
def statusCode (t : Tracker) : Nat := if t.updated then 200 else 304

/-- The header object built by `buildHeader`. -/
structure Header where
  contentType : Str
  etag : Val
  deriving DecidableEq, Repr

/-- Method `Tracker.prototype.buildHeader`. -/
def buildHeader (t : Tracker) : Header :=
  { contentType := "text/javascript".toList, etag := t.etag }

/-- Method `Tracker.prototype.buildScript`; `callback = none` is a call without
argument (or with `null`). -/
def buildScript (t : Tracker) (callback : Option Str) : Str :=
  let callback := orElse callback t.callback
  "; typeof ".toList ++ callback ++ " === 'function' && ".toList ++
    callback ++ "(\x7b".toList ++
    "id: ".toList ++ t.id.toStr ++ ",".toList ++
    "session: ".toList ++ t.session.toStr ++ ",".toList ++
    "lastSeen: ".toList ++ t.lastSeen.toStr ++ "\x7d".toList ++
    ");".toList

/-- What `respond` sends through the response object: the arguments of
`writeHead` and the argument of `end` (`none` for `res.end()`). -/
structure Response where
  status : Nat
  header : Header
  body : Option Str
  deriving DecidableEq, Repr

/-- Method `Tracker.prototype.respond`; `callback = none` is the one-argument call
`respond(res)`. -/
def respond (t : Tracker) (callback : Option Str) : Response :=
  let callback := orElse callback t.callback
  { status := statusCode t, header := buildHeader t,
    body := if t.updated then some (buildScript t (some callback)) else none }

/-! ## Notions used to state the properties -/

/-- The state decoded from a presented token, before any update. -/
def decoded (q : Option Str) (token a : Str) (lastSeen : Num) (session : Str) : Tracker :=
  { updated := false, callback := orElse q defaultCallback, etag := Val.str token,
    id := Val.str a, lastSeen := Val.num lastSeen, session := Val.str session }

/-- Characters `0`..`9`. -/
def IsDec (c : Char) : Prop := 48 ≤ c.toNat ∧ c.toNat ≤ 57

/-- The callback script for callback name `c` and the three fields as text. -/
def scriptText (c id session lastSeen : Str) : Str :=
  "; typeof ".toList ++ c ++ " === 'function' && ".toList ++ c ++ "(\x7bid: ".toList ++ id ++
    ",session: ".toList ++ session ++ ",lastSeen: ".toList ++ lastSeen ++ "\x7d);".toList

/-- The callback name in effect: the name passed explicitly, else the name from
the query string, else the default; an empty string is no name. -/
def chosenCallback (explicit query : Option Str) : Str :=
  match explicit.filter (fun n => !n.isEmpty), query.filter (fun n => !n.isEmpty) with
  | some n, _ => n
  | none, some n => n
  | none, none => defaultCallback

theorem digitChar_toNat (d : Nat) (h : d < 10) : (Nat.digitChar d).toNat = 48 + d := by
  interval_cases d <;> rfl

theorem digitChar_isDec (d : Nat) (h : d < 10) : IsDec (Nat.digitChar d) := by
  unfold IsDec
  rw [digitChar_toNat d h]
  omega

theorem digitValue_digitChar (d : Nat) (h : d < 10) :
    digitValue 10 (Nat.digitChar d) = some d := by
  unfold digitValue
  rw [digitChar_toNat d h]
  have h1 : 48 ≤ 48 + d ∧ 48 + d ≤ 57 := by omega
  rw [if_pos h1]
  congr 1
  omega

theorem toDigitsCore_acc (fuel : Nat) : ∀ (n : Nat) (acc : List Char),
    Nat.toDigitsCore 10 fuel n acc = Nat.toDigitsCore 10 fuel n [] ++ acc := by
  induction fuel with
  | zero => intro n acc; simp [Nat.toDigitsCore]
  | succ f ih =>
    intro n acc
    simp only [Nat.toDigitsCore]
    by_cases h : n / 10 = 0
    · simp [h]
    · simp only [h, if_false]
      rw [ih (n / 10) (Nat.digitChar (n % 10) :: acc), ih (n / 10) [Nat.digitChar (n % 10)]]
      simp

theorem digitsValue_snoc (ds : Str) (c : Char) :
    digitsValue 10 (ds ++ [c]) = digitsValue 10 ds * 10 + (digitValue 10 c).getD 0 := by
  simp [digitsValue, List.foldl_append]

theorem toDigitsCore_spec (fuel : Nat) : ∀ n : Nat, n < fuel →
    (∀ c ∈ Nat.toDigitsCore 10 fuel n [], IsDec c) ∧
    digitsValue 10 (Nat.toDigitsCore 10 fuel n []) = n ∧
    Nat.toDigitsCore 10 fuel n [] ≠ [] := by
  induction fuel with
  | zero => intro n h; omega
  | succ f ih =>
    intro n hn
    have hd : n % 10 < 10 := Nat.mod_lt _ (by decide)
    simp only [Nat.toDigitsCore]
    by_cases h : n / 10 = 0
    · simp only [h, if_true]
      refine ⟨?_, ?_, by simp⟩
      · intro c hc
        simp only [List.mem_singleton] at hc
        subst hc
        exact digitChar_isDec _ hd
      · have := digitsValue_snoc [] (Nat.digitChar (n % 10))
        simp only [List.nil_append] at this
        rw [this, digitValue_digitChar _ hd]
        simp [digitsValue]
        omega
    · simp only [h, if_false]
      rw [toDigitsCore_acc]
      have hlt : n / 10 < f := by omega
      obtain ⟨h1, h2, h3⟩ := ih (n / 10) hlt
      refine ⟨?_, ?_, by simp [h3]⟩
      · intro c hc
        simp only [List.mem_append, List.mem_singleton] at hc
        rcases hc with hc | hc
        · exact h1 c hc
        · subst hc; exact digitChar_isDec _ hd
      · rw [digitsValue_snoc, h2, digitValue_digitChar _ hd]
        simp
        omega

theorem toDigits_isDec (n : Nat) : ∀ c ∈ Nat.toDigits 10 n, IsDec c :=
  (toDigitsCore_spec (n + 1) n (Nat.lt_succ_self n)).1

theorem toDigits_value (n : Nat) : digitsValue 10 (Nat.toDigits 10 n) = n :=
  (toDigitsCore_spec (n + 1) n (Nat.lt_succ_self n)).2.1

theorem toDigits_ne_nil (n : Nat) : Nat.toDigits 10 n ≠ [] :=
  (toDigitsCore_spec (n + 1) n (Nat.lt_succ_self n)).2.2

theorem isDec_radixDigit {c : Char} (h : IsDec c) : isRadixDigit 10 c = true := by
  unfold IsDec at h
  simp [isRadixDigit, digitValue, h]

theorem isDec_not_white {c : Char} (h : IsDec c) : isStrWhiteSpace c = false := by
  unfold IsDec at h
  simp only [isStrWhiteSpace, decide_eq_false_iff_not, List.mem_cons, List.mem_singleton,
    List.not_mem_nil, or_false]
  omega

theorem isDec_ne_of_toNat {c d : Char} (h : IsDec c) (hd : d.toNat < 48 ∨ 57 < d.toNat) :
    c ≠ d := by
  intro e
  subst e
  unfold IsDec at h
  omega

theorem startsWith_cons (c d : Char) (cs : Str) : startsWith (c :: cs) d = decide (c = d) := by
  by_cases h : c = d <;> simp [startsWith, h]

theorem dec_facts (ds : Str) (hne : ds ≠ []) (hd : ∀ c ∈ ds, IsDec c) :
    ds.dropWhile isStrWhiteSpace = ds ∧ startsWith ds '-' = false ∧
    startsWith ds '+' = false ∧ hexMarked ds = false ∧
    ds.takeWhile (isRadixDigit 10) = ds ∧ ds.all (isRadixDigit 10) = true := by
  cases ds with
  | nil => exact absurd rfl hne
  | cons c cs =>
    have hc : IsDec c := hd c (List.mem_cons_self _ _)
    refine ⟨?_, ?_, ?_, ?_, ?_, ?_⟩
    · simp [List.dropWhile, isDec_not_white hc]
    · rw [startsWith_cons]
      exact decide_eq_false (isDec_ne_of_toNat hc (Or.inl (by decide)))
    · rw [startsWith_cons]
      exact decide_eq_false (isDec_ne_of_toNat hc (Or.inl (by decide)))
    · cases cs with
      | nil => simp [hexMarked]
      | cons c2 cs2 =>
        have hc2 : IsDec c2 := hd c2 (by simp)
        have h1 : c2 ≠ 'x' := isDec_ne_of_toNat hc2 (Or.inr (by decide))
        have h2 : c2 ≠ 'X' := isDec_ne_of_toNat hc2 (Or.inr (by decide))
        simp [hexMarked, h1, h2]
    · rw [List.takeWhile_eq_self_iff]
      intro x hx
      exact isDec_radixDigit (hd x hx)
    · rw [List.all_eq_true]
      intro x hx
      exact isDec_radixDigit (hd x hx)

theorem parseInt_dec (ds : Str) (hne : ds ≠ []) (hd : ∀ c ∈ ds, IsDec c) :
    parseInt ds = Num.int (digitsValue 10 ds : Int) := by
  obtain ⟨h1, h2, h3, h4, h5, _⟩ := dec_facts ds hne hd
  have h6 : ds.isEmpty = false := by cases ds <;> simp_all
  simp [parseInt, h1, h2, h3, h4, h5, h6]

theorem parseInt_neg_dec (ds : Str) (hne : ds ≠ []) (hd : ∀ c ∈ ds, IsDec c) :
    parseInt ('-' :: ds) = Num.int (-(digitsValue 10 ds : Int)) := by
  obtain ⟨_, _, _, h4, h5, _⟩ := dec_facts ds hne hd
  have h6 : ds.isEmpty = false := by cases ds <;> simp_all
  have hw : isStrWhiteSpace '-' = false := by decide
  simp [parseInt, List.dropWhile, hw, startsWith_cons, h4, h5, h6]

theorem strToNumber_dec (ds : Str) (hne : ds ≠ []) (hd : ∀ c ∈ ds, IsDec c) :
    strToNumber ds = some (Num.int (digitsValue 10 ds : Int)) := by
  obtain ⟨_, h2, h3, _, _, h7⟩ := dec_facts ds hne hd
  have h6 : ds.isEmpty = false := by cases ds <;> simp_all
  simp [strToNumber, h2, h3, h6, h7]

theorem strToNumber_neg_dec (ds : Str) (hne : ds ≠ []) (hd : ∀ c ∈ ds, IsDec c) :
    strToNumber ('-' :: ds) = some (Num.int (-(digitsValue 10 ds : Int))) := by
  obtain ⟨_, _, _, _, _, h7⟩ := dec_facts ds hne hd
  have h6 : ds.isEmpty = false := by cases ds <;> simp_all
  simp [strToNumber, startsWith_cons, h6, h7]

theorem parseInt_intToStr (n : Int) : parseInt (intToStr n) = Num.int n := by
  cases n with
  | ofNat k =>
    simp only [intToStr]
    rw [parseInt_dec _ (toDigits_ne_nil k) (toDigits_isDec k), toDigits_value]
    rfl
  | negSucc k =>
    simp only [intToStr]
    rw [parseInt_neg_dec _ (toDigits_ne_nil _) (toDigits_isDec _), toDigits_value]
    rfl

theorem strToNumber_intToStr (n : Int) : strToNumber (intToStr n) = some (Num.int n) := by
  cases n with
  | ofNat k =>
    simp only [intToStr]
    rw [strToNumber_dec _ (toDigits_ne_nil k) (toDigits_isDec k), toDigits_value]
    rfl
  | negSucc k =>
    simp only [intToStr]
    rw [strToNumber_neg_dec _ (toDigits_ne_nil _) (toDigits_isDec _), toDigits_value]
    rfl

theorem intToStr_ne_nil (n : Int) : intToStr n ≠ [] := by
  cases n with
  | ofNat k => simpa [intToStr] using toDigits_ne_nil k
  | negSucc k => simp [intToStr]

theorem intToStr_no_dot (n : Int) : '.' ∉ intToStr n := by
  cases n with
  | ofNat k =>
    intro h
    exact isDec_ne_of_toNat (toDigits_isDec k _ h) (Or.inl (by decide)) rfl
  | negSucc k =>
    intro h
    simp only [intToStr, List.mem_cons] at h
    rcases h with h | h
    · exact absurd h (by decide)
    · exact isDec_ne_of_toNat (toDigits_isDec _ _ h) (Or.inl (by decide)) rfl

/-! ## The three regular expressions on dot-separated text -/

theorem joinToken_eq (a b c : Str) : joinToken a b c = a ++ '.' :: (b ++ '.' :: c) := by
  simp [joinToken]

theorem takeWhile_seg (a rest : Str) (ha : '.' ∉ a) :
    (a ++ '.' :: rest).takeWhile (fun c => c != '.') = a := by
  induction a with
  | nil => simp
  | cons x xs ih =>
    have hx : x ≠ '.' := fun e => ha (by simp [e])
    have hxs : '.' ∉ xs := fun e => ha (by simp [e])
    have hb : (x != '.') = true := by simp [hx]
    simp [List.takeWhile, hb, ih hxs]

theorem dropWhile_seg (a rest : Str) (ha : '.' ∉ a) :
    (a ++ '.' :: rest).dropWhile (fun c => c != '.') = '.' :: rest := by
  induction a with
  | nil => simp
  | cons x xs ih =>
    have hx : x ≠ '.' := fun e => ha (by simp [e])
    have hxs : '.' ∉ xs := fun e => ha (by simp [e])
    have hb : (x != '.') = true := by simp [hx]
    simp [List.dropWhile, hb, ih hxs]

theorem isEmpty_false_of_ne_nil (a : Str) (h : a ≠ []) : a.isEmpty = false := by
  cases a with
  | nil => exact absurd rfl h
  | cons x xs => rfl

theorem matchFirst_seg (a rest : Str) (hne : a ≠ []) (ha : '.' ∉ a) :
    matchFirst (a ++ '.' :: rest) = some a := by
  simp [matchFirst, takeWhile_seg a rest ha, isEmpty_false_of_ne_nil a hne]

theorem matchSecond_seg3 (a b rest : Str) (hne : a ≠ []) (ha : '.' ∉ a) (hb : b ≠ [])
    (hbd : '.' ∉ b) : matchSecond (a ++ '.' :: (b ++ '.' :: rest)) = some b := by
  simp [matchSecond, takeWhile_seg a _ ha, dropWhile_seg a _ ha,
    isEmpty_false_of_ne_nil a hne, takeWhile_seg b rest hbd, isEmpty_false_of_ne_nil b hb]

theorem matchLast_seg (pre c : Str) (hne : c ≠ []) (hc : '.' ∉ c) :
    matchLast (pre ++ '.' :: c) = some c := by
  induction pre with
  | nil =>
    have hall : c.all (fun d => d != '.') = true := by
      rw [List.all_eq_true]
      intro x hx
      have : x ≠ '.' := fun e => hc (e ▸ hx)
      simp [this]
    simp [matchLast, isEmpty_false_of_ne_nil c hne, hall]
  | cons x xs ih =>
    have hno : ((xs ++ '.' :: c).all (fun d => d != '.')) = false := by
      rw [Bool.eq_false_iff]
      intro h
      rw [List.all_eq_true] at h
      have := h '.' (by simp)
      simp at this
    simp [matchLast, hno, ih]

/-- Decoding of a three-segment ETag. -/
theorem parse_three (t : Tracker) (a b c : Str) (ha : a ≠ []) (had : '.' ∉ a)
    (hb : b ≠ []) (hbd : '.' ∉ b) (hc : c ≠ []) (hcd : '.' ∉ c)
    (he : t.etag = Val.str (joinToken a b c)) :
    parse t = Except.ok { t with id := Val.str a, lastSeen := Val.num (parseInt b),
                                 session := Val.str c } := by
  have h1 : matchFirst (joinToken a b c) = some a := by
    rw [joinToken_eq]; exact matchFirst_seg a _ ha had
  have h2 : matchSecond (joinToken a b c) = some b := by
    rw [joinToken_eq]; exact matchSecond_seg3 a b c ha had hb hbd
  have h3 : matchLast (joinToken a b c) = some c := by
    rw [joinToken_eq]
    have : a ++ '.' :: (b ++ '.' :: c) = (a ++ '.' :: b) ++ '.' :: c := by simp
    rw [this]; exact matchLast_seg _ c hc hcd
  simp [parse, he, h1, h2, h3]

theorem joinToken_ne_nil (a b c : Str) : joinToken a b c ≠ [] := by
  simp [joinToken_eq]

/-- A request presenting a three-segment token: decoding, then the optional update. -/
theorem newTracker_three (q : Option Str) (upd : Option Bool) (env : Env) (a b c : Str)
    (ha : a ≠ []) (had : '.' ∉ a) (hb : b ≠ []) (hbd : '.' ∉ b) (hc : c ≠ [])
    (hcd : '.' ∉ c) :
    newTracker { queryCallback := q, ifNoneMatch := some (joinToken a b c) } upd env =
      if upd.getD true then update (decoded q (joinToken a b c) a (parseInt b) c) env
      else Except.ok (decoded q (joinToken a b c) a (parseInt b) c) := by
  unfold newTracker
  simp only [isEmpty_false_of_ne_nil _ (joinToken_ne_nil a b c)]
  simp only [Bool.false_eq_true, if_false]
  rw [parse_three _ a b c ha had hb hbd hc hcd rfl]
  rfl

theorem toNumber_num (n : Num) : (Val.num n).toNumber = Except.ok n := rfl

/-- After the idle window, `update` bumps the session and regenerates the ETag;
`lastSeen` keeps its decoded value. -/
theorem update_renew (t : Tracker) (env : Env) (a : Str) (T s : Int)
    (hu : t.updated = false) (hid : t.id = Val.str a) (ha : a ≠ [])
    (hl : t.lastSeen = Val.num (Num.int T)) (hidle : 1800000 ≤ env.now - T)
    (hs : t.session.toNumber = Except.ok (Num.int s)) (hs1 : s + 1 ≠ 0) :
    update t env = Except.ok
      { t with updated := true,
               etag := Val.str (joinToken a (intToStr env.nowEtag) (intToStr (s + 1))),
               session := Val.num (Num.int (s + 1)) } := by
  unfold update
  have hne : a.isEmpty = false := isEmpty_false_of_ne_nil a ha
  simp [hu, hl, toNumber_num, Num.sub, Num.geInt, hidle, hs, Num.succ, generateEtag, hid,
    Val.truthy, hne, hs1, Val.toStr, Num.toStr, joinToken]

theorem toNumber_intToStr (s : Int) :
    (Val.str (intToStr s)).toNumber = Except.ok (Num.int s) := by
  simp [Val.toNumber, strToNumber_intToStr]

/-- Renewal of a well-formed token, the whole resulting state. -/
theorem newTracker_renew (q : Option Str) (upd : Option Bool) (env : Env) (a : Str)
    (T s : Int) (ha : a ≠ []) (had : '.' ∉ a) (hs : 0 < s)
    (hupd : upd.getD true = true) (hidle : 1800000 ≤ env.now - T) :
    newTracker { queryCallback := q,
                 ifNoneMatch := some (joinToken a (intToStr T) (intToStr s)) } upd env =
      Except.ok { updated := true, callback := orElse q defaultCallback,
                  etag := Val.str (joinToken a (intToStr env.nowEtag) (intToStr (s + 1))),
                  id := Val.str a, lastSeen := Val.num (Num.int T),
                  session := Val.num (Num.int (s + 1)) } := by
  rw [newTracker_three q upd env a _ _ ha had (intToStr_ne_nil T) (intToStr_no_dot T)
    (intToStr_ne_nil s) (intToStr_no_dot s), hupd, if_pos rfl, parseInt_intToStr]
  rw [update_renew _ env a T s rfl rfl ha rfl hidle (toNumber_intToStr s) (by omega)]
  rfl

/-- Decoding what `generateEtag` built: `id` and `lastSeen` come back as they
were, the session comes back as its decimal text. -/
theorem parse_generateEtag (t : Tracker) (env : Env) (a : Str) (s : Int)
    (hid : t.id = Val.str a) (ha : a ≠ []) (had : '.' ∉ a)
    (hs : t.session = Val.num (Num.int s)) (hs0 : s ≠ 0) :
    parse { (generateEtag t env).1 with etag := Val.str (generateEtag t env).2 } =
      Except.ok { updated := true, callback := t.callback,
                  etag := Val.str (joinToken a (intToStr env.nowEtag) (intToStr s)),
                  id := Val.str a, lastSeen := Val.num (Num.int env.nowEtag),
                  session := Val.str (intToStr s) } := by
  have he : ({ (generateEtag t env).1 with etag := Val.str (generateEtag t env).2 } : Tracker).etag
      = Val.str (joinToken a (intToStr env.nowEtag) (intToStr s)) := by
    simp [generateEtag, hid, hs, Val.truthy, isEmpty_false_of_ne_nil a ha, hs0, Val.toStr,
      Num.toStr, joinToken]
  rw [parse_three _ a (intToStr env.nowEtag) (intToStr s) ha had (intToStr_ne_nil _)
    (intToStr_no_dot _) (intToStr_ne_nil _) (intToStr_no_dot _) he, parseInt_intToStr]
  simp [generateEtag, hid, hs, Val.truthy, isEmpty_false_of_ne_nil a ha, hs0, Val.toStr,
    Num.toStr, joinToken]

theorem update_callback (t t2 : Tracker) (env : Env) (h : update t env = Except.ok t2) :
    t2.callback = t.callback := by
  unfold update at h
  cases hu : t.updated with
  | true =>
    simp [hu] at h
    rw [← h]
  | false =>
    simp only [hu, Bool.not_false, if_true] at h
    cases hl : t.lastSeen.toNumber with
    | error f => simp [hl] at h
    | ok ls =>
      simp only [hl] at h
      by_cases hd : ((Num.int env.now).sub ls).geInt 1800000 = true
      · simp only [hd, if_true] at h
        cases hs : t.session.toNumber with
        | error f => simp [hs] at h
        | ok old =>
          simp only [hs, Except.ok.injEq] at h
          rw [← h]
          simp [generateEtag]
      · simp only [hd, Bool.false_eq_true, if_false, Except.ok.injEq] at h
        rw [← h]

theorem parse_callback (t t2 : Tracker) (h : parse t = Except.ok t2) :
    t2.callback = t.callback := by
  unfold parse at h
  split at h
  · split at h
    · simp at h
    · split at h
      · simp at h
      · split at h
        · simp at h
        · simp only [Except.ok.injEq] at h
          rw [← h]
  · simp at h

/-- The constructor fixes the callback name from the query string. -/
theorem newTracker_callback (req : Request) (upd : Option Bool) (env : Env) (t : Tracker)
    (h : newTracker req upd env = Except.ok t) :
    t.callback = orElse req.queryCallback defaultCallback := by
  unfold newTracker at h
  simp only at h
  split at h
  · simp at h
  · rename_i t2 hp
    have h2 := parse_callback _ _ hp
    have h3 : t.callback = t2.callback := by
      by_cases hu : upd.getD true = true
      · rw [if_pos hu] at h
        exact update_callback _ _ env h
      · rw [if_neg hu] at h
        simp only [Except.ok.injEq] at h
        rw [h]
    rw [h3, h2]
    cases hh : req.ifNoneMatch with
    | none => simp [generateEtag]
    | some x =>
      by_cases hx : x.isEmpty = true
      · simp [hx, generateEtag]
      · simp [hx]

theorem orElse_orElse (cb : Option Str) (b : Str) :
    orElse (some (orElse cb b)) b = orElse cb b := by
  cases cb with
  | none =>
    cases b <;> simp [orElse]
  | some x =>
    cases x with
    | nil => cases b <;> simp [orElse]
    | cons c cs => simp [orElse]

theorem buildScript_eq (t : Tracker) (cb : Option Str) :
    buildScript t cb =
      scriptText (orElse cb t.callback) t.id.toStr t.session.toStr t.lastSeen.toStr := by
  simp [buildScript, scriptText]

theorem chosenCallback_eq (explicit query : Option Str) :
    chosenCallback explicit query = orElse explicit (orElse query defaultCallback) := by
  cases explicit with
  | none =>
    cases query with
    | none => rfl
    | some y => cases y <;> rfl
  | some x =>
    cases x with
    | nil =>
      cases query with
      | none => rfl
      | some y => cases y <;> rfl
    | cons c cs => rfl

/-! ## Claims -/

/-- C1. The token codec does not return the session as the integer it encoded:
for id `681429050444587`, lastSeen `1429050444587` and session `1`, `parse`
applied to the token `generateEtag` builds returns the same id and the same
integer lastSeen, but the session is the string `"1"`, not the number `1`. -/
theorem parse_returns_session_as_text :
    parse { (generateEtag
              { updated := false, callback := defaultCallback, etag := Val.undefined,
                id := Val.str "681429050444587".toList, lastSeen := Val.undefined,
                session := Val.num (Num.int 1) }
              { now := 1429050444587, nowEtag := 1429050444587, nowId := 1429050444587,
                random := 0 }).1 with
            etag := Val.str (generateEtag
              { updated := false, callback := defaultCallback, etag := Val.undefined,
                id := Val.str "681429050444587".toList, lastSeen := Val.undefined,
                session := Val.num (Num.int 1) }
              { now := 1429050444587, nowEtag := 1429050444587, nowId := 1429050444587,
                random := 0 }).2 } =
      Except.ok { updated := true, callback := defaultCallback,
                  etag := Val.str "681429050444587.1429050444587.1".toList,
                  id := Val.str "681429050444587".toList,
                  lastSeen := Val.num (Num.int 1429050444587),
                  session := Val.str "1".toList } ∧
    Val.str "1".toList ≠ Val.num (Num.int 1) :=
  ⟨rfl, by decide⟩

/-- C5. After a renewal the `lastSeen` property is not the current time: for
token `751429049947678.1429043947680.2` processed at `1429045747680`
(1800000 ms later) the ETag carries `1429045747680` and session 3, but
`lastSeen` is still `1429043947680`, and the body reports that old value. -/
theorem renewal_keeps_old_lastSeen :
    ∃ t, newTracker { queryCallback := none,
                      ifNoneMatch := some "751429049947678.1429043947680.2".toList } none
          { now := 1429045747680, nowEtag := 1429045747680, nowId := 1429045747680, random := 0 }
          = Except.ok t ∧
      t.updated = true ∧
      t.etag = Val.str "751429049947678.1429045747680.3".toList ∧
      t.session = Val.num (Num.int 3) ∧
      t.lastSeen = Val.num (Num.int 1429043947680) ∧
      t.lastSeen ≠ Val.num (Num.int 1429045747680) ∧
      (respond t none).status = 200 ∧
      (respond t none).body = some ("; typeof cookielessCallback === 'function' && " ++
        "cookielessCallback(\x7bid: 751429049947678,session: 3,lastSeen: 1429043947680\x7d);").toList :=
  ⟨_, newTracker_renew none none
        { now := 1429045747680, nowEtag := 1429045747680, nowId := 1429045747680, random := 0 }
        "751429049947678".toList 1429043947680 2 (by decide) (by decide) (by decide) rfl
        (by decide),
    rfl, rfl, rfl, rfl, by decide, rfl, rfl⟩

/-- C8. `respond` writes status 200 and the callback script exactly when
`updated` is true, status 304 and no body exactly when it is false; the header
is always `Content-Type: text/javascript` with the tracker's ETag; `statusCode`
is 200 when updated and 304 otherwise. -/
theorem respond_decision (t : Tracker) (cb : Option Str) :
    statusCode t = (if t.updated = true then 200 else 304) ∧
    (respond t cb).status = statusCode t ∧
    ((respond t cb).status = 200 ↔ t.updated = true) ∧
    ((respond t cb).status = 304 ↔ t.updated = false) ∧
    ((respond t cb).body = some (buildScript t cb) ↔ t.updated = true) ∧
    ((respond t cb).body = none ↔ t.updated = false) ∧
    (respond t cb).header = buildHeader t ∧
    (buildHeader t).contentType = "text/javascript".toList ∧
    (buildHeader t).etag = t.etag := by
  have hb : buildScript t (some (orElse cb t.callback)) = buildScript t cb := by
    rw [buildScript_eq, buildScript_eq, orElse_orElse]
  cases hu : t.updated <;> simp [respond, statusCode, buildHeader, hu, hb]

/-- C9. `buildScript` returns exactly
`; typeof c === 'function' && c({id: ID,session: SESSION,lastSeen: LASTSEEN});`
for the callback name `c` in effect, with the three fields unquoted and in this
order; the token `751429049947678.1429043947680.2` without update gives the
text of the test. -/
theorem buildScript_text (t : Tracker) (cb : Option Str) :
    buildScript t cb =
      "; typeof ".toList ++ orElse cb t.callback ++ " === 'function' && ".toList ++
        orElse cb t.callback ++ "(\x7bid: ".toList ++ t.id.toStr ++ ",session: ".toList ++
        t.session.toStr ++ ",lastSeen: ".toList ++ t.lastSeen.toStr ++ "\x7d);".toList ∧
    (newTracker { queryCallback := none,
                  ifNoneMatch := some "751429049947678.1429043947680.2".toList } (some false)
        { now := 1429045747680, nowEtag := 1429045747680, nowId := 1429045747680,
          random := 0 }).map (fun t2 => buildScript t2 none) =
      Except.ok ("; typeof cookielessCallback === 'function' && " ++
        "cookielessCallback(\x7bid: 751429049947678,session: 2,lastSeen: 1429043947680\x7d);").toList :=
  ⟨buildScript_eq t cb, rfl⟩

/-- C10. The callback name in the body is the name passed explicitly to
`buildScript` or `respond`, else the name from the query string, else
`cookielessCallback`; the body uses it in the `typeof` guard and in the call. -/
theorem callback_choice (req : Request) (upd : Option Bool) (env : Env) (t : Tracker)
    (explicit : Option Str) (h : newTracker req upd env = Except.ok t) :
    t.callback = chosenCallback none req.queryCallback ∧
    buildScript t explicit =
      "; typeof ".toList ++ chosenCallback explicit req.queryCallback ++
        " === 'function' && ".toList ++ chosenCallback explicit req.queryCallback ++
        "(\x7bid: ".toList ++ t.id.toStr ++ ",session: ".toList ++ t.session.toStr ++
        ",lastSeen: ".toList ++ t.lastSeen.toStr ++ "\x7d);".toList ∧
    (respond t explicit).body =
      (if t.updated = true then some (buildScript t explicit) else none) := by
  have hc := newTracker_callback req upd env t h
  have hb : buildScript t (some (orElse explicit t.callback)) = buildScript t explicit := by
    rw [buildScript_eq, buildScript_eq, orElse_orElse]
  refine ⟨?_, ?_, ?_⟩
  · rw [hc, chosenCallback_eq]
    rfl
  · rw [buildScript_eq, hc, chosenCallback_eq]
    rfl
  · simp [respond, hb]

/-- Witness for C10: with `?callback=setVisitor` and the old token of the
tests, the tracker's callback is `setVisitor`, and an explicit `other` takes
precedence in the body. -/
theorem callback_choice_witness :
    "setVisitor".toList = chosenCallback none (some "setVisitor".toList) ∧
    buildScript
        { updated := true, callback := "setVisitor".toList,
          etag := Val.str "751429049947678.1429045747680.3".toList,
          id := Val.str "751429049947678".toList,
          lastSeen := Val.num (Num.int 1429043947680), session := Val.num (Num.int 3) }
        (some "other".toList) =
      ("; typeof other === 'function' && " ++
       "other(\x7bid: 751429049947678,session: 3,lastSeen: 1429043947680\x7d);").toList ∧
    (respond
        { updated := true, callback := "setVisitor".toList,
          etag := Val.str "751429049947678.1429045747680.3".toList,
          id := Val.str "751429049947678".toList,
          lastSeen := Val.num (Num.int 1429043947680), session := Val.num (Num.int 3) }
        (some "other".toList)).body =
      some ("; typeof other === 'function' && " ++
       "other(\x7bid: 751429049947678,session: 3,lastSeen: 1429043947680\x7d);").toList :=
  callback_choice
    (Request.mk (some "setVisitor".toList) (some "751429049947678.1429043947680.2".toList))
    none (Env.mk 1429045747680 1429045747680 1429045747680 0)
    { updated := true, callback := "setVisitor".toList,
      etag := Val.str "751429049947678.1429045747680.3".toList,
      id := Val.str "751429049947678".toList,
      lastSeen := Val.num (Num.int 1429043947680), session := Val.num (Num.int 3) }
    (some "other".toList) rfl

/-! ## Further facts about tokens and `update` -/

end Cookieless
